import Mathlib

/-!
Verification of the resistance-calculation engine of `perfiles-verificacion`
(CIRSOC 301 / AISC 360-10 member checks) against its specification.

The Python modules `clasificacion/clasificacion_seccion.py`,
`resistencia/compresion.py`, `resistencia/flexion.py` and
`resistencia/interaccion.py` are embedded shallowly: their pure numeric
functions become functions over `ℝ`, section families become an inductive
tag, dict entries read with `.get` and float `nan` markers become `Option`
values, and accumulated warning strings keep their static prefixes (the
interpolated numbers of the Python f-strings are not representable and are
dropped).  Display rounding (`round(x, n)`) applied to the returned report
dictionaries is omitted: every claim below concerns the computed quantities,
and the pass/fail decisions in the source are taken on the unrounded values.
-/

namespace Perfiles

/-- Element classes of `clasificacion_seccion.py`:
COMPACTA, NO_COMPACTA, ESBELTA. -/
inductive Clase
  | COMPACTA
  | NO_COMPACTA
  | ESBELTA
  deriving DecidableEq

/-- Severity rank of a class: ESBELTA > NO_COMPACTA > COMPACTA. -/
def Clase.rank : Clase → ℕ
  | .COMPACTA => 0
  | .NO_COMPACTA => 1
  | .ESBELTA => 2

/-- The worse of two classes under the severity order
ESBELTA > NO_COMPACTA > COMPACTA. -/
def Clase.worst (a b : Clase) : Clase :=
  if a.rank ≤ b.rank then b else a

/-- The overall-class rule of `clasificar_seccion` (clasificacion_seccion.py,
lines 614-621): ESBELTA if some element is ESBELTA, otherwise NO_COMPACTA if
some element is NO_COMPACTA, otherwise COMPACTA. -/
def clase_global (clases : List Clase) : Clase :=
  if Clase.ESBELTA ∈ clases then .ESBELTA
  else if Clase.NO_COMPACTA ∈ clases then .NO_COMPACTA
  else .COMPACTA

noncomputable section

/-- `_clasificar_elemento` (clasificacion_seccion.py): COMPACTA when λp is
given and λ ≤ λp; otherwise NO_COMPACTA when λ ≤ λr; otherwise ESBELTA. -/
def _clasificar_elemento (lambda_val : ℝ) (lambda_p : Option ℝ)
    (lambda_r : ℝ) : Clase :=
  match lambda_p with
  | some lp =>
      if lambda_val ≤ lp then .COMPACTA
      else if lambda_val ≤ lambda_r then .NO_COMPACTA
      else .ESBELTA
  | none =>
      if lambda_val ≤ lambda_r then .NO_COMPACTA
      else .ESBELTA

/-- `_calcular_Fcr` (compresion.py): Q·Fy/Fe ≤ 2.25 gives the inelastic
branch 0.658^(Q·Fy/Fe)·Q·Fy, otherwise the elastic branch 0.877·Fe. -/
def _calcular_Fcr (Fe Fy Q : ℝ) : ℝ :=
  let QFy := Q * Fy
  let ratio := QFy / Fe
  if ratio ≤ 2.25 then (0.658 : ℝ) ^ ratio * QFy else 0.877 * Fe

/-- `_calcular_qs_ala_laminada` (clasificacion_seccion.py): Qs for rolled
flanges, AISC E7-4 to E7-6. -/
def _calcular_qs_ala_laminada (bt_ratio E Fy : ℝ) : ℝ :=
  let raiz_E_Fy := Real.sqrt (E / Fy)
  if bt_ratio ≤ 0.56 * raiz_E_Fy then 1.0
  else if bt_ratio < 1.03 * raiz_E_Fy then
    1.415 - 0.74 * bt_ratio * Real.sqrt (Fy / E)
  else 0.69 * E / (Fy * bt_ratio ^ 2)

/-- `_calcular_qs_angular` (clasificacion_seccion.py): Qs for single angles,
AISC E7-10 to E7-12. -/
def _calcular_qs_angular (bt_ratio E Fy : ℝ) : ℝ :=
  let raiz_E_Fy := Real.sqrt (E / Fy)
  if bt_ratio ≤ 0.45 * raiz_E_Fy then 1.0
  else if bt_ratio ≤ 0.91 * raiz_E_Fy then
    1.34 - 0.76 * bt_ratio * Real.sqrt (Fy / E)
  else 0.53 * E / (Fy * bt_ratio ^ 2)

/-- `_calcular_qs_stem_perfil_t` (clasificacion_seccion.py): Qs for tee
stems, AISC E7-7 to E7-9. -/
def _calcular_qs_stem_perfil_t (dt_ratio E Fy : ℝ) : ℝ :=
  let raiz_E_Fy := Real.sqrt (E / Fy)
  if dt_ratio ≤ 0.75 * raiz_E_Fy then 1.0
  else if dt_ratio ≤ 1.03 * raiz_E_Fy then
    1.908 - 1.22 * dt_ratio * Real.sqrt (Fy / E)
  else 0.69 * E / (Fy * dt_ratio ^ 2)

/-- `_calcular_q_tubo_circular` (clasificacion_seccion.py): direct Q for
circular tubes, AISC E7.2(c). -/
def _calcular_q_tubo_circular (Dt_ratio E Fy : ℝ) : ℝ :=
  let limite := 0.11 * E / Fy
  if Dt_ratio ≤ limite then 1.0
  else 0.038 * E / (Fy * Dt_ratio)

/-- `_calcular_qa_hss_pared` (clasificacion_seccion.py): Qa for one wall of a
rectangular/square HSS, AISC E7-16/E7-17, clamped to [0, 1]. -/
def _calcular_qa_hss_pared (bt_ratio E Fcr : ℝ) : ℝ :=
  let raiz_E_f := Real.sqrt (E / Fcr)
  if bt_ratio < 1.40 * raiz_E_f then 1.0
  else
    let factor := raiz_E_f / bt_ratio
    let be_b := (1.0 - 0.34 * factor) * factor
    min (max be_b 0.0) 1.0

/-- `_calcular_qa_alma` (clasificacion_seccion.py): Qa for the stiffened web
of a doble T or channel, AISC E7-16/E7-17, via the effective width be. -/
def _calcular_qa_alma (hw_tw E Fcr b A_total : ℝ) : ℝ :=
  let raiz_E_f := Real.sqrt (E / Fcr)
  if hw_tw < 1.49 * raiz_E_f then 1.0
  else
    let factor := raiz_E_f / hw_tw
    let be := b * (1.0 - 0.34 * factor) * factor
    let be2 := min be b
    be2 / b

/-- Section family tags, the closed set of `tipo` strings dispatched on by
`clasificar_seccion` / `calcular_Q`.  W, M, HP, S, IPE, IPN, IPB, IPBl, IPBv
map to DOBLE_T; C, MC, UPN to CANAL; L to ANGULAR; T, WT, MT, ST to
PERFIL_T; TUBO CIRC. and PIPE to TUBO_CIRC; TUBO CUAD. to TUBO_CUAD; and
TUBO RECT. and HSS (which behave identically in every dispatch) to
TUBO_RECT. -/
inductive Tipo
  | DOBLE_T
  | CANAL
  | ANGULAR
  | PERFIL_T
  | TUBO_CIRC
  | TUBO_CUAD
  | TUBO_RECT
  deriving DecidableEq

/-- The geometric inputs `clasificar_seccion` and `calcular_Q` read from the
props dictionary.  Keys read with `.get(k, 0)` and then guarded by `> 0`
(b_t for tubes, D_t, h_tw) are plain reals, where the value 0 stands for an
absent key; `d_tw`, whose absence falls back to `hw_tw`, is an `Option`. -/
structure Props where
  tipo : Tipo
  d : ℝ
  Ag : ℝ
  bf_2tf : ℝ
  hw_tw : ℝ
  tf : ℝ
  b_t : ℝ
  D_t : ℝ
  h_tw : ℝ
  d_tw : Option ℝ

/-- `_limites_ala_doble_t`: λp = 0.38·√(E/Fy), λr = 1.00·√(E/Fy). -/
def _limites_ala_doble_t (E Fy : ℝ) : Option ℝ × ℝ :=
  let raiz := Real.sqrt (E / Fy)
  (some (0.38 * raiz), 1.00 * raiz)

/-- `_limites_alma_doble_t`: λp = 3.76·√(E/Fy), λr = 5.70·√(E/Fy). -/
def _limites_alma_doble_t (E Fy : ℝ) : Option ℝ × ℝ :=
  let raiz := Real.sqrt (E / Fy)
  (some (3.76 * raiz), 5.70 * raiz)

/-- `_limites_ala_canal`: λp = 0.38·√(E/Fy), λr = 1.00·√(E/Fy). -/
def _limites_ala_canal (E Fy : ℝ) : Option ℝ × ℝ :=
  let raiz := Real.sqrt (E / Fy)
  (some (0.38 * raiz), 1.00 * raiz)

/-- `_limites_alma_canal`: λp = 3.76·√(E/Fy), λr = 5.70·√(E/Fy). -/
def _limites_alma_canal (E Fy : ℝ) : Option ℝ × ℝ :=
  let raiz := Real.sqrt (E / Fy)
  (some (3.76 * raiz), 5.70 * raiz)

/-- `_limites_pata_angular`: λp = 0.38·√(E/Fy), λr = 0.45·√(E/Fy). -/
def _limites_pata_angular (E Fy : ℝ) : Option ℝ × ℝ :=
  let raiz := Real.sqrt (E / Fy)
  (some (0.38 * raiz), 0.45 * raiz)

/-- `_limites_ala_perfil_t`: λp = 0.38·√(E/Fy), λr = 1.00·√(E/Fy). -/
def _limites_ala_perfil_t (E Fy : ℝ) : Option ℝ × ℝ :=
  let raiz := Real.sqrt (E / Fy)
  (some (0.38 * raiz), 1.00 * raiz)

/-- `_limites_alma_perfil_t`: no λp, λr = 0.75·√(E/Fy). -/
def _limites_alma_perfil_t (E Fy : ℝ) : Option ℝ × ℝ :=
  let raiz := Real.sqrt (E / Fy)
  (none, 0.75 * raiz)

/-- `_limites_tubo_circular`: no λp, λr = 0.11·E/Fy. -/
def _limites_tubo_circular (E Fy : ℝ) : Option ℝ × ℝ :=
  (none, 0.11 * (E / Fy))

/-- `_limites_tubo_rectangular_pared`: no λp, λr = 1.40·√(E/Fy). -/
def _limites_tubo_rectangular_pared (E Fy : ℝ) : Option ℝ × ℝ :=
  let raiz := Real.sqrt (E / Fy)
  (none, 1.40 * raiz)

/-- The record `clasificar_seccion` returns: the per-element classes (keyed
as in the Python elementos dict), the overall class, the ESBELTA flag and
the advisory notes (kept as static strings). -/
structure Clasificacion where
  elementos : List (String × Clase)
  clase_seccion : Clase
  es_esbelta : Bool
  advertencias : List String

/-- `clasificar_seccion` (clasificacion_seccion.py): builds the per-family
element list, classifies each element and takes the worst class.  Elements
guarded by `> 0` in the source (tube walls) are only inserted when their
slenderness is positive. -/
def clasificar_seccion (p : Props) (Fy : ℝ) (E : ℝ) : Clasificacion :=
  let elementos : List (String × Clase) :=
    match p.tipo with
    | .DOBLE_T =>
        let la := _limites_ala_doble_t E Fy
        let lw := _limites_alma_doble_t E Fy
        [("ala", _clasificar_elemento p.bf_2tf la.1 la.2),
         ("alma", _clasificar_elemento p.hw_tw lw.1 lw.2)]
    | .CANAL =>
        let la := _limites_ala_canal E Fy
        let lw := _limites_alma_canal E Fy
        [("ala", _clasificar_elemento p.bf_2tf la.1 la.2),
         ("alma", _clasificar_elemento p.hw_tw lw.1 lw.2)]
    | .ANGULAR =>
        let lp := _limites_pata_angular E Fy
        [("pata", _clasificar_elemento p.b_t lp.1 lp.2)]
    | .PERFIL_T =>
        let la := _limites_ala_perfil_t E Fy
        let ls := _limites_alma_perfil_t E Fy
        let d_tw := p.d_tw.getD p.hw_tw
        [("ala", _clasificar_elemento p.bf_2tf la.1 la.2),
         ("stem", _clasificar_elemento d_tw ls.1 ls.2)]
    | .TUBO_CIRC =>
        let lc := _limites_tubo_circular E Fy
        if 0 < p.D_t then [("pared", _clasificar_elemento p.D_t lc.1 lc.2)]
        else []
    | .TUBO_CUAD =>
        let lt := _limites_tubo_rectangular_pared E Fy
        if 0 < p.b_t then [("flange", _clasificar_elemento p.b_t lt.1 lt.2)]
        else []
    | .TUBO_RECT =>
        let lt := _limites_tubo_rectangular_pared E Fy
        (if 0 < p.b_t then [("flange", _clasificar_elemento p.b_t lt.1 lt.2)]
         else []) ++
        (if 0 < p.h_tw then [("web", _clasificar_elemento p.h_tw lt.1 lt.2)]
         else [])
  let advertencias : List String :=
    match p.tipo with
    | .DOBLE_T => []
    | .CANAL => []
    | .ANGULAR => ["Ángulo: λp adoptado conservadoramente igual al de ala de doble T"]
    | .PERFIL_T => ["Perfil T: Stem no tiene λp en compresión (solo λr)."]
    | .TUBO_CIRC =>
        (if 0 < p.D_t then [] else ["D/t no disponible para tubo circular"]) ++
        ["Tubo circular: No hay λp en compresión (solo λr = 0.11·E/Fy)."]
    | .TUBO_CUAD => ["Tubo HSS: No hay λp en compresión (solo λr = 1.40·√(E/Fy))."]
    | .TUBO_RECT => ["Tubo HSS: No hay λp en compresión (solo λr = 1.40·√(E/Fy))."]
  let clase := clase_global (elementos.map Prod.snd)
  { elementos := elementos
    clase_seccion := clase
    es_esbelta := decide (clase = Clase.ESBELTA)
    advertencias := advertencias }

/-- The record `calcular_Q` returns. -/
structure QInfo where
  Q : ℝ
  Qs : ℝ
  Qa : ℝ
  notas : List String

/-- `calcular_Q` (clasificacion_seccion.py, AISC E7): Q = Qs·Qa for slender
sections.  Elements are looked up in the classification's elementos dict;
Fcr = none models the Python `Fcr=None` default.  At the end Qs is clamped
to [0.35, 0.76]. -/
def calcular_Q (p : Props) (Fy : ℝ) (E : ℝ) (Fcr : Option ℝ) : QInfo :=
  let clasificacion := clasificar_seccion p Fy E
  if clasificacion.es_esbelta = false then
    { Q := 1.0, Qs := 1.0, Qa := 1.0, notas := ["Sección no esbelta: Q = 1.0"] }
  else
    let qqn : ℝ × ℝ × List String :=
      match p.tipo with
      | .DOBLE_T =>
          let qs :=
            if clasificacion.elementos.lookup "ala" = some Clase.ESBELTA then
              (_calcular_qs_ala_laminada p.bf_2tf E Fy, ["Ala esbelta"])
            else ((1.0 : ℝ), [])
          let qa :=
            if clasificacion.elementos.lookup "alma" = some Clase.ESBELTA then
              match Fcr with
              | none => ((1.0 : ℝ),
                  ["ADVERTENCIA: Fcr no proporcionado, Qa = 1.0 (conservador)"])
              | some fcr =>
                  let hw := p.d - 2 * p.tf
                  (_calcular_qa_alma p.hw_tw E fcr hw p.Ag, ["Alma esbelta"])
            else ((1.0 : ℝ), [])
          (qs.1, qa.1, qs.2 ++ qa.2)
      | .CANAL =>
          let qs :=
            if clasificacion.elementos.lookup "ala" = some Clase.ESBELTA then
              (_calcular_qs_ala_laminada p.bf_2tf E Fy, ["Ala esbelta"])
            else ((1.0 : ℝ), [])
          let qa :=
            if clasificacion.elementos.lookup "alma" = some Clase.ESBELTA then
              match Fcr with
              | none => ((1.0 : ℝ),
                  ["ADVERTENCIA: Fcr no proporcionado, Qa = 1.0 (conservador)"])
              | some fcr =>
                  let hw := p.d - 2 * p.tf
                  (_calcular_qa_alma p.hw_tw E fcr hw p.Ag, ["Alma esbelta"])
            else ((1.0 : ℝ), [])
          (qs.1, qa.1, qs.2 ++ qa.2)
      | .ANGULAR =>
          if clasificacion.elementos.lookup "pata" = some Clase.ESBELTA then
            (_calcular_qs_angular p.b_t E Fy, 1.0, ["Pata esbelta"])
          else (1.0, 1.0, [])
      | .PERFIL_T =>
          let qs1 :=
            if clasificacion.elementos.lookup "ala" = some Clase.ESBELTA then
              (_calcular_qs_ala_laminada p.bf_2tf E Fy, ["Ala esbelta"])
            else ((1.0 : ℝ), [])
          let qs2 :=
            if clasificacion.elementos.lookup "stem" = some Clase.ESBELTA then
              let dt := p.d_tw.getD p.hw_tw
              if 0 < dt then
                (min qs1.1 (_calcular_qs_stem_perfil_t dt E Fy), ["Stem esbelta"])
              else (qs1.1, [])
            else (qs1.1, [])
          (qs2.1, 1.0, qs1.2 ++ qs2.2)
      | .TUBO_CIRC =>
          if clasificacion.elementos.lookup "pared" = some Clase.ESBELTA then
            if 0 < p.D_t then
              (_calcular_q_tubo_circular p.D_t E Fy, 1.0, ["Tubo circular esbelta"])
            else (1.0, 1.0, [])
          else (1.0, 1.0, [])
      | .TUBO_CUAD =>
          let qa1 :=
            if clasificacion.elementos.lookup "flange" = some Clase.ESBELTA then
              match Fcr with
              | some fcr =>
                  if 0 < p.b_t then
                    (min 1.0 (_calcular_qa_hss_pared p.b_t E fcr), ["Flange esbelta"])
                  else ((1.0 : ℝ), [])
              | none => ((1.0 : ℝ), [])
            else ((1.0 : ℝ), [])
          let qa2 :=
            if clasificacion.elementos.lookup "web" = some Clase.ESBELTA then
              match Fcr with
              | some fcr =>
                  if 0 < p.h_tw then
                    (min qa1.1 (_calcular_qa_hss_pared p.h_tw E fcr), ["Web esbelta"])
                  else (qa1.1, [])
              | none => (qa1.1, [])
            else (qa1.1, [])
          let qa3 :=
            if Fcr = none ∧ qa2.1 < 1.0 then
              ((1.0 : ℝ),
               ["ADVERTENCIA: Fcr no proporcionado, Qa = 1.0 (conservador)"])
            else (qa2.1, [])
          (1.0, qa3.1, qa1.2 ++ qa2.2 ++ qa3.2)
      | .TUBO_RECT =>
          let qa1 :=
            if clasificacion.elementos.lookup "flange" = some Clase.ESBELTA then
              match Fcr with
              | some fcr =>
                  if 0 < p.b_t then
                    (min 1.0 (_calcular_qa_hss_pared p.b_t E fcr), ["Flange esbelta"])
                  else ((1.0 : ℝ), [])
              | none => ((1.0 : ℝ), [])
            else ((1.0 : ℝ), [])
          let qa2 :=
            if clasificacion.elementos.lookup "web" = some Clase.ESBELTA then
              match Fcr with
              | some fcr =>
                  if 0 < p.h_tw then
                    (min qa1.1 (_calcular_qa_hss_pared p.h_tw E fcr), ["Web esbelta"])
                  else (qa1.1, [])
              | none => (qa1.1, [])
            else (qa1.1, [])
          let qa3 :=
            if Fcr = none ∧ qa2.1 < 1.0 then
              ((1.0 : ℝ),
               ["ADVERTENCIA: Fcr no proporcionado, Qa = 1.0 (conservador)"])
            else (qa2.1, [])
          (1.0, qa3.1, qa1.2 ++ qa2.2 ++ qa3.2)
    let qsClamped : ℝ × List String :=
      if qqn.1 < 0.35 then (0.35, qqn.2.2 ++ ["Qs limitado a 0.35"])
      else if qqn.1 > 0.76 then (0.76, qqn.2.2 ++ ["Qs limitado a 0.76"])
      else (qqn.1, qqn.2.2)
    { Q := qsClamped.1 * qqn.2.1
      Qs := qsClamped.1
      Qa := qqn.2.1
      notas := qsClamped.2 }

/-- `_Mn_LTB` (flexion.py, AISC F2-1 to F2-4): nominal strong-axis moment by
lateral-torsional buckling as a three-zone function of the unbraced length
Lb, together with the governing-mode label. -/
def _Mn_LTB (Lb Lp Lr Mp Fy Sx Cb E rts J ho : ℝ) : ℝ × String :=
  if Lb ≤ Lp then (Mp, "Fluencia")
  else if Lb ≤ Lr then
    let Mn := Cb * (Mp - (Mp - 0.7 * Fy * Sx) * (Lb - Lp) / (Lr - Lp))
    (min Mn Mp, "LTB inelástico")
  else
    let slend := Lb / rts
    let Fcr := Cb * Real.pi ^ 2 * E / slend ^ 2 *
      Real.sqrt (1 + 0.078 * J / (Sx * ho) * slend ^ 2)
    (min (Fcr * Sx) Mp, "LTB elástico")

/-- The record `interaccion` returns (the claim-relevant keys of the Python
result dict).  `none` in an `Option ℝ` field models a float `nan`. -/
structure ResultadoInteraccion where
  ratio : Option ℝ
  cumple : Bool
  ecuacion : String
  Pd : ℝ
  Mdx : Option ℝ
  Mdy : Option ℝ
  Nu_Pd : Option ℝ
  Mux_Mdx : Option ℝ
  Muy_Mdy : Option ℝ
  advertencias : List String

/-- `interaccion` (interaccion.py, AISC H1-1), starting after the capacity
sub-calls: Pd, Mdx, Mdy are the design capacities those calls produced
(`none` models nan) and `advertencias` the warnings accumulated from them.
Pd ≤ 0 returns early with nan markers and a warning; otherwise the H1-1a /
H1-1b selection on Nu/Pd decides the combined ratio, and moment ratios with
non-positive or nan capacity are taken as 0. -/
def interaccion (Nu Mux Muy : ℝ) (Pd : ℝ) (Mdx Mdy : Option ℝ)
    (advertencias : List String) : ResultadoInteraccion :=
  if Pd ≤ 0 then
    { ratio := none
      cumple := false
      ecuacion := "—"
      Pd := Pd
      Mdx := Mdx
      Mdy := Mdy
      Nu_Pd := none
      Mux_Mdx := none
      Muy_Mdy := none
      advertencias := advertencias ++ ["Pd ≤ 0: interacción no calculada."] }
  else
    let Nu_Pd : ℝ := if 0 < Pd then Nu / Pd else 0.0
    let Mux_Mdx : ℝ :=
      match Mdx with
      | some m => if 0 < m then Mux / m else 0.0
      | none => 0.0
    let Muy_Mdy : ℝ :=
      match Mdy with
      | some m => if 0 < m then Muy / m else 0.0
      | none => 0.0
    let M_ratio_sum := Mux_Mdx + Muy_Mdy
    let re : ℝ × String :=
      if 0.2 ≤ Nu_Pd then (Nu_Pd + 8 / 9 * M_ratio_sum, "H1-1a")
      else (Nu_Pd / 2 + M_ratio_sum, "H1-1b")
    { ratio := some re.1
      cumple := if re.1 ≤ 1.0 then true else false
      ecuacion := re.2
      Pd := Pd
      Mdx := Mdx
      Mdy := Mdy
      Nu_Pd := some Nu_Pd
      Mux_Mdx := some Mux_Mdx
      Muy_Mdy := some Muy_Mdy
      advertencias := advertencias }

/-- A concrete single angle with a slender leg: b/t = 20 against
λr = 0.45·√(E/Fy) = 4.5 at Fy = 1, E = 100. -/
def propsAngularEsbelto : Props :=
  { tipo := .ANGULAR, d := 1, Ag := 1, bf_2tf := 1, hw_tw := 1, tf := 0,
    b_t := 20, D_t := 0, h_tw := 0, d_tw := none }

/-- A concrete rectangular tube with a slender flange wall: b/t = 20 against
λr = 1.40·√(E/Fy) = 14 at Fy = 1, E = 100 (web ratio absent). -/
def propsTuboRectEsbelto : Props :=
  { tipo := .TUBO_RECT, d := 1, Ag := 1, bf_2tf := 0, hw_tw := 1, tf := 0,
    b_t := 20, D_t := 0, h_tw := 0, d_tw := none }

end

/-! ## Helper lemmas -/

lemma clase_global_cons (c : Clase) (t : List Clase) :
    clase_global (c :: t) = Clase.worst c (clase_global t) := by
  cases c <;>
    by_cases hE : Clase.ESBELTA ∈ t <;>
      by_cases hN : Clase.NO_COMPACTA ∈ t <;>
        simp [clase_global, Clase.worst, Clase.rank, hE, hN]

lemma clase_global_foldr (cs : List Clase) :
    clase_global cs = cs.foldr Clase.worst Clase.COMPACTA := by
  induction cs with
  | nil => rfl
  | cons c t ih => rw [List.foldr_cons, ← ih, clase_global_cons]

lemma rpow_pow_cuarta :
    ((0.658 : ℝ) ^ (2.25 : ℝ)) ^ (4 : ℕ) = (0.658 : ℝ) ^ (9 : ℕ) := by
  rw [← Real.rpow_natCast ((0.658 : ℝ) ^ (2.25 : ℝ)) 4,
    ← Real.rpow_mul (by norm_num : (0 : ℝ) ≤ 0.658),
    show (2.25 : ℝ) * ((4 : ℕ) : ℝ) = ((9 : ℕ) : ℝ) by norm_num,
    Real.rpow_natCast]

lemma rpow_cota_inferior : (0.3899 : ℝ) < (0.658 : ℝ) ^ (2.25 : ℝ) := by
  have h0 : (0 : ℝ) ≤ (0.658 : ℝ) ^ (2.25 : ℝ) :=
    Real.rpow_nonneg (by norm_num) _
  have h4 : (0.3899 : ℝ) ^ (4 : ℕ) < ((0.658 : ℝ) ^ (2.25 : ℝ)) ^ (4 : ℕ) := by
    rw [rpow_pow_cuarta]; norm_num
  exact lt_of_pow_lt_pow_left 4 h0 h4

lemma rpow_cota_superior : (0.658 : ℝ) ^ (2.25 : ℝ) < 0.38997 := by
  have h4 : ((0.658 : ℝ) ^ (2.25 : ℝ)) ^ (4 : ℕ) < (0.38997 : ℝ) ^ (4 : ℕ) := by
    rw [rpow_pow_cuarta]; norm_num
  exact lt_of_pow_lt_pow_left 4 (by norm_num) h4

lemma sqrt_mul_sqrt_inv (E Fy : ℝ) (hE : 0 < E) (hFy : 0 < Fy) :
    Real.sqrt (E / Fy) * Real.sqrt (Fy / E) = 1 := by
  rw [← Real.sqrt_mul (by positivity) (Fy / E),
    show E / Fy * (Fy / E) = 1 by field_simp]
  exact Real.sqrt_one

lemma sq_sqrt_div (E Fy : ℝ) (hE : 0 < E) (hFy : 0 < Fy) :
    Real.sqrt (E / Fy) ^ 2 = E / Fy :=
  Real.sq_sqrt (by positivity)

lemma fcr_ltb_antitono (K c s1 s2 : ℝ) (hK : 0 ≤ K) (hc : 0 ≤ c)
    (hs1 : 0 < s1) (hs : s1 ≤ s2) :
    K / s2 ^ 2 * Real.sqrt (1 + c * s2 ^ 2) ≤
    K / s1 ^ 2 * Real.sqrt (1 + c * s1 ^ 2) := by
  have hs2 : 0 < s2 := lt_of_lt_of_le hs1 hs
  have key : ∀ s : ℝ, 0 < s → K / s ^ 2 * Real.sqrt (1 + c * s ^ 2)
      = K * Real.sqrt ((1 + c * s ^ 2) / s ^ 4) := by
    intro s hspos
    rw [Real.sqrt_div (by positivity) (s ^ 4),
      show (s : ℝ) ^ 4 = (s ^ 2) ^ 2 by ring,
      Real.sqrt_sq (by positivity)]
    ring
  rw [key s1 hs1, key s2 hs2]
  refine mul_le_mul_of_nonneg_left ?_ hK
  refine Real.sqrt_le_sqrt ?_
  rw [div_le_div_iff (by positivity) (by positivity)]
  nlinarith [pow_le_pow_left hs1.le hs 4, pow_le_pow_left hs1.le hs 2,
    mul_nonneg (mul_nonneg hc (sq_nonneg s1)) (sq_nonneg s2),
    mul_pos hs1 hs2]

lemma qa_alma_en_rango (hw_tw E fcr b A : ℝ) (hE : 0 < E) (hf : 0 < fcr)
    (hb : b ≠ 0) :
    0 < _calcular_qa_alma hw_tw E fcr b A ∧
    _calcular_qa_alma hw_tw E fcr b A ≤ 1 := by
  simp only [_calcular_qa_alma]
  set r := Real.sqrt (E / fcr) with hr
  have hrpos : 0 < r := Real.sqrt_pos.mpr (by positivity)
  by_cases hlt : hw_tw < 1.49 * r
  · rw [if_pos hlt]; norm_num
  · rw [if_neg hlt]
    push_neg at hlt
    have hh : 0 < hw_tw := lt_of_lt_of_le (by nlinarith) hlt
    have hfpos : 0 < r / hw_tw := div_pos hrpos hh
    have hfle : r / hw_tw ≤ 1 / 1.49 := by
      rw [div_le_div_iff hh (by norm_num)]
      nlinarith
    have hcpos : 0 < (1.0 - 0.34 * (r / hw_tw)) * (r / hw_tw) := by nlinarith
    have hclt1 : (1.0 - 0.34 * (r / hw_tw)) * (r / hw_tw) < 1 := by
      nlinarith [sq_nonneg (r / hw_tw)]
    rcases lt_or_gt_of_ne hb with hbneg | hbpos
    · have hgt : b < b * (1.0 - 0.34 * (r / hw_tw)) * (r / hw_tw) := by
        nlinarith [mul_pos (neg_pos.mpr hbneg) (sub_pos.mpr hclt1)]
      rw [min_eq_right hgt.le, div_self hb]
      norm_num
    · have hbe : b * (1.0 - 0.34 * (r / hw_tw)) * (r / hw_tw) ≤ b := by
        nlinarith [mul_pos hbpos hcpos]
      rw [min_eq_left hbe]
      constructor
      · apply div_pos _ hbpos
        nlinarith [mul_pos hbpos hcpos]
      · rw [div_le_one hbpos]
        exact hbe

lemma qa_hss_en_rango (bt E fcr : ℝ) (hE : 0 < E) (hf : 0 < fcr)
    (hbt : 0 < bt) :
    0 < _calcular_qa_hss_pared bt E fcr ∧
    _calcular_qa_hss_pared bt E fcr ≤ 1 := by
  simp only [_calcular_qa_hss_pared]
  set r := Real.sqrt (E / fcr) with hr
  have hrpos : 0 < r := Real.sqrt_pos.mpr (by positivity)
  by_cases hlt : bt < 1.40 * r
  · rw [if_pos hlt]; norm_num
  · rw [if_neg hlt]
    push_neg at hlt
    have hfpos : 0 < r / bt := div_pos hrpos hbt
    have hfle : r / bt ≤ 1 / 1.40 := by
      rw [div_le_div_iff hbt (by norm_num)]
      nlinarith
    have hbe : 0 < (1.0 - 0.34 * (r / bt)) * (r / bt) := by nlinarith
    have hmax : max ((1.0 - 0.34 * (r / bt)) * (r / bt)) 0.0
        = (1.0 - 0.34 * (r / bt)) * (r / bt) := max_eq_left (by linarith)
    rw [hmax]
    constructor
    · exact lt_min hbe (by norm_num)
    · exact (min_le_right _ _).trans (by norm_num)

lemma sqrt_cien : Real.sqrt (100 : ℝ) = 10 := by
  rw [show (100 : ℝ) = 10 ^ 2 by norm_num]
  exact Real.sqrt_sq (by norm_num)

lemma clamp_fst_mem (x : ℝ) (l1 l2 l3 : List String) :
    0.35 ≤ (if x < 0.35 then ((0.35 : ℝ), l1)
            else if x > 0.76 then ((0.76 : ℝ), l2) else (x, l3)).1 ∧
    (if x < 0.35 then ((0.35 : ℝ), l1)
     else if x > 0.76 then ((0.76 : ℝ), l2) else (x, l3)).1 ≤ 0.76 := by
  split_ifs with h1 h2
  · norm_num
  · norm_num
  · push_neg at h1 h2
    exact ⟨by linarith, by linarith⟩

lemma one_mem_unit : 0 < (1.0 : ℝ) ∧ (1.0 : ℝ) ≤ 1 := by norm_num

lemma min_mem_unit {a b : ℝ} (ha : 0 < a ∧ a ≤ 1) (hb : 0 < b ∧ b ≤ 1) :
    0 < min a b ∧ min a b ≤ 1 :=
  ⟨lt_min ha.1 hb.1, (min_le_left _ _).trans ha.2⟩

/-! ## Claim theorems -/

/-- C1 (amended): at ratio = Q·Fy/Fe = 2.25 exactly, the inelastic branch
taken by `_calcular_Fcr` agrees with the elastic value 0.877·Fe to within
5·10⁻⁴ relative tolerance.  (Not 10⁻⁹: the code's constant 0.877 is a
rounding of 2.25·0.658^2.25 ≈ 0.877386.) -/
theorem C1_fcr_frontera (Fe Fy Q : ℝ) (hFe : 0 < Fe) (hFy : 0 < Fy)
    (hQ : 0 < Q) (hratio : Q * Fy / Fe = 2.25) :
    |_calcular_Fcr Fe Fy Q - 0.877 * Fe| ≤ 5e-4 * (0.877 * Fe) := by
  have hQFy : Q * Fy = 2.25 * Fe := by
    rw [div_eq_iff hFe.ne'] at hratio
    exact hratio
  simp only [_calcular_Fcr]
  rw [hratio, if_pos le_rfl, hQFy, abs_le]
  constructor <;>
    nlinarith [mul_lt_mul_of_pos_right rpow_cota_inferior hFe,
      mul_lt_mul_of_pos_right rpow_cota_superior hFe]

/-- Witness for C1 at Fe = 100, Fy = 225, Q = 1 (ratio = 2.25). -/
theorem C1_fcr_frontera_witness :
    |_calcular_Fcr 100 225 1 - 0.877 * 100| ≤ 5e-4 * (0.877 * 100) :=
  C1_fcr_frontera 100 225 1 (by norm_num) (by norm_num) (by norm_num)
    (by norm_num)

/-- C1 counterexample to the claim as stated: at Fe = 100, Fy = 225, Q = 1
(so ratio = 2.25 exactly) the two branches differ by ≈ 0.039 MPa, far more
than 10⁻⁹ relative tolerance. -/
theorem C1_fcr_frontera_counterexample :
    ¬ |_calcular_Fcr 100 225 1 - 0.877 * 100| ≤ 1e-9 * (0.877 * 100) := by
  simp only [_calcular_Fcr]
  rw [show ((1 : ℝ) * 225 / 100) = (2.25 : ℝ) by norm_num, if_pos le_rfl,
    not_le]
  refine lt_of_lt_of_le ?_ (le_abs_self _)
  nlinarith [mul_lt_mul_of_pos_right rpow_cota_inferior
    (show (0 : ℝ) < 225 by norm_num)]

/-- C3 (amended): at each shared threshold of the three unstiffened-element
Qs formulas, the value taken by the piecewise function agrees with the
neighbouring branch's formula to within 10⁻² absolute tolerance (the AISC
transition coefficients are rounded, so the branches do not meet exactly). -/
theorem C3_qs_continuidad (E Fy : ℝ) (hE : 0 < E) (hFy : 0 < Fy) :
    |_calcular_qs_ala_laminada (0.56 * Real.sqrt (E / Fy)) E Fy -
        (1.415 - 0.74 * (0.56 * Real.sqrt (E / Fy)) * Real.sqrt (Fy / E))|
      ≤ 1 / 100 ∧
    |_calcular_qs_ala_laminada (1.03 * Real.sqrt (E / Fy)) E Fy -
        (1.415 - 0.74 * (1.03 * Real.sqrt (E / Fy)) * Real.sqrt (Fy / E))|
      ≤ 1 / 100 ∧
    |_calcular_qs_angular (0.45 * Real.sqrt (E / Fy)) E Fy -
        (1.34 - 0.76 * (0.45 * Real.sqrt (E / Fy)) * Real.sqrt (Fy / E))|
      ≤ 1 / 100 ∧
    |_calcular_qs_angular (0.91 * Real.sqrt (E / Fy)) E Fy -
        0.53 * E / (Fy * (0.91 * Real.sqrt (E / Fy)) ^ 2)| ≤ 1 / 100 ∧
    |_calcular_qs_stem_perfil_t (0.75 * Real.sqrt (E / Fy)) E Fy -
        (1.908 - 1.22 * (0.75 * Real.sqrt (E / Fy)) * Real.sqrt (Fy / E))|
      ≤ 1 / 100 ∧
    |_calcular_qs_stem_perfil_t (1.03 * Real.sqrt (E / Fy)) E Fy -
        0.69 * E / (Fy * (1.03 * Real.sqrt (E / Fy)) ^ 2)| ≤ 1 / 100 := by
  have hs : 0 < Real.sqrt (E / Fy) := Real.sqrt_pos.mpr (by positivity)
  have hid := sqrt_mul_sqrt_inv E Fy hE hFy
  have hsq := sq_sqrt_div E Fy hE hFy
  have hred : ∀ a β : ℝ, 0 < β →
      a * E / (Fy * (β * Real.sqrt (E / Fy)) ^ 2) = a / β ^ 2 := by
    intro a β hβ
    rw [show Fy * (β * Real.sqrt (E / Fy)) ^ 2
        = β ^ 2 * (Fy * Real.sqrt (E / Fy) ^ 2) by ring, hsq,
      show Fy * (E / Fy) = E by field_simp,
      show a * E / (β ^ 2 * E) = a / β ^ 2 * (E / E) by ring,
      div_self hE.ne', mul_one]
  refine ⟨?_, ?_, ?_, ?_, ?_, ?_⟩
  · simp only [_calcular_qs_ala_laminada]
    rw [if_pos le_rfl,
      show (1.415 : ℝ) - 0.74 * (0.56 * Real.sqrt (E / Fy)) * Real.sqrt (Fy / E)
        = 1.415 - 0.4144 * (Real.sqrt (E / Fy) * Real.sqrt (Fy / E)) by ring,
      hid, abs_le]
    norm_num
  · simp only [_calcular_qs_ala_laminada]
    rw [if_neg (not_le.mpr (by nlinarith)), if_neg (lt_irrefl _),
      hred 0.69 1.03 (by norm_num),
      show (1.415 : ℝ) - 0.74 * (1.03 * Real.sqrt (E / Fy)) * Real.sqrt (Fy / E)
        = 1.415 - 0.7622 * (Real.sqrt (E / Fy) * Real.sqrt (Fy / E)) by ring,
      hid, abs_le]
    norm_num
  · simp only [_calcular_qs_angular]
    rw [if_pos le_rfl,
      show (1.34 : ℝ) - 0.76 * (0.45 * Real.sqrt (E / Fy)) * Real.sqrt (Fy / E)
        = 1.34 - 0.342 * (Real.sqrt (E / Fy) * Real.sqrt (Fy / E)) by ring,
      hid, abs_le]
    norm_num
  · simp only [_calcular_qs_angular]
    rw [if_neg (not_le.mpr (by nlinarith)), if_pos le_rfl,
      hred 0.53 0.91 (by norm_num),
      show (1.34 : ℝ) - 0.76 * (0.91 * Real.sqrt (E / Fy)) * Real.sqrt (Fy / E)
        = 1.34 - 0.6916 * (Real.sqrt (E / Fy) * Real.sqrt (Fy / E)) by ring,
      hid, abs_le]
    norm_num
  · simp only [_calcular_qs_stem_perfil_t]
    rw [if_pos le_rfl,
      show (1.908 : ℝ) - 1.22 * (0.75 * Real.sqrt (E / Fy)) * Real.sqrt (Fy / E)
        = 1.908 - 0.915 * (Real.sqrt (E / Fy) * Real.sqrt (Fy / E)) by ring,
      hid, abs_le]
    norm_num
  · simp only [_calcular_qs_stem_perfil_t]
    rw [if_neg (not_le.mpr (by nlinarith)), if_pos le_rfl,
      hred 0.69 1.03 (by norm_num),
      show (1.908 : ℝ) - 1.22 * (1.03 * Real.sqrt (E / Fy)) * Real.sqrt (Fy / E)
        = 1.908 - 1.2566 * (Real.sqrt (E / Fy) * Real.sqrt (Fy / E)) by ring,
      hid, abs_le]
    norm_num

/-- Witness for C3 at E = 200000, Fy = 250. -/
theorem C3_qs_continuidad_witness :
    |_calcular_qs_ala_laminada (0.56 * Real.sqrt (200000 / 250)) 200000 250 -
        (1.415 - 0.74 * (0.56 * Real.sqrt (200000 / 250)) *
          Real.sqrt (250 / 200000))| ≤ 1 / 100 :=
  (C3_qs_continuidad 200000 250 (by norm_num) (by norm_num)).1

/-- C3 counterexample to the claim as stated: at E = 200000, Fy = 250 the
fully-effective value of the rolled-flange formula at its first threshold
differs from the transition formula's value there by 6·10⁻⁴, which is not
within a 10⁻⁹ floating tolerance. -/
theorem C3_qs_continuidad_counterexample :
    ¬ |_calcular_qs_ala_laminada (0.56 * Real.sqrt (200000 / 250)) 200000 250 -
        (1.415 - 0.74 * (0.56 * Real.sqrt (200000 / 250)) *
          Real.sqrt (250 / 200000))| ≤ 1e-9 := by
  have hid := sqrt_mul_sqrt_inv 200000 250 (by norm_num) (by norm_num)
  simp only [_calcular_qs_ala_laminada]
  rw [if_pos le_rfl,
    show (1.415 : ℝ) - 0.74 * (0.56 * Real.sqrt ((200000 : ℝ) / 250)) *
        Real.sqrt ((250 : ℝ) / 200000)
      = 1.415 - 0.4144 *
        (Real.sqrt ((200000 : ℝ) / 250) * Real.sqrt ((250 : ℝ) / 200000)) by
      ring,
    hid, not_le]
  rw [show (1.0 : ℝ) - (1.415 - 0.4144 * 1) = -(6 / 10000) by norm_num,
    abs_neg, abs_of_pos (by norm_num)]
  norm_num

/-- C8: for every slender section (with positive E, positive supplied Fcr,
and web height d - 2·tf ≠ 0), the factors returned by `calcular_Q` satisfy
Qs ∈ [0.35, 0.76], Qa ∈ (0, 1] and Q = Qs·Qa exactly. -/
theorem C8_factores_q (p : Props) (Fy E : ℝ) (Fcr : Option ℝ)
    (hE : 0 < E) (hFcr : ∀ x ∈ Fcr, 0 < x) (htf : p.d - 2 * p.tf ≠ 0)
    (hesb : (clasificar_seccion p Fy E).es_esbelta = true) :
    0.35 ≤ (calcular_Q p Fy E Fcr).Qs ∧ (calcular_Q p Fy E Fcr).Qs ≤ 0.76 ∧
    (0 < (calcular_Q p Fy E Fcr).Qa ∧ (calcular_Q p Fy E Fcr).Qa ≤ 1) ∧
    (calcular_Q p Fy E Fcr).Q
      = (calcular_Q p Fy E Fcr).Qs * (calcular_Q p Fy E Fcr).Qa := by
  obtain ⟨tipo, d, Ag, bf2tf, hwtw, tf, bt, Dt, htw, dtw⟩ := p
  cases tipo
  case DOBLE_T =>
    simp only [calcular_Q]
    rw [if_neg (by simp [hesb])]
    dsimp only
    refine ⟨(clamp_fst_mem _ _ _ _).1, (clamp_fst_mem _ _ _ _).2, ?_, rfl⟩
    split_ifs with halma
    · cases Fcr with
      | none => exact one_mem_unit
      | some fcr =>
          exact qa_alma_en_rango hwtw E fcr (d - 2 * tf) Ag hE
            (hFcr fcr (by simp)) htf
    · exact one_mem_unit
  case CANAL =>
    simp only [calcular_Q]
    rw [if_neg (by simp [hesb])]
    dsimp only
    refine ⟨(clamp_fst_mem _ _ _ _).1, (clamp_fst_mem _ _ _ _).2, ?_, rfl⟩
    split_ifs with halma
    · cases Fcr with
      | none => exact one_mem_unit
      | some fcr =>
          exact qa_alma_en_rango hwtw E fcr (d - 2 * tf) Ag hE
            (hFcr fcr (by simp)) htf
    · exact one_mem_unit
  case ANGULAR =>
    simp only [calcular_Q]
    rw [if_neg (by simp [hesb])]
    dsimp only
    refine ⟨(clamp_fst_mem _ _ _ _).1, (clamp_fst_mem _ _ _ _).2, ?_, rfl⟩
    split_ifs <;> exact one_mem_unit
  case PERFIL_T =>
    simp only [calcular_Q]
    rw [if_neg (by simp [hesb])]
    dsimp only
    refine ⟨(clamp_fst_mem _ _ _ _).1, (clamp_fst_mem _ _ _ _).2, ?_, rfl⟩
    exact one_mem_unit
  case TUBO_CIRC =>
    simp only [calcular_Q]
    rw [if_neg (by simp [hesb])]
    dsimp only
    refine ⟨(clamp_fst_mem _ _ _ _).1, (clamp_fst_mem _ _ _ _).2, ?_, rfl⟩
    split_ifs <;> exact one_mem_unit
  case TUBO_CUAD =>
    simp only [calcular_Q]
    rw [if_neg (by simp [hesb])]
    dsimp only
    refine ⟨(clamp_fst_mem _ _ _ _).1, (clamp_fst_mem _ _ _ _).2, ?_, rfl⟩
    cases Fcr with
    | none => split_ifs <;> solve | exact one_mem_unit | simp_all
    | some fcr =>
        split_ifs <;>
          solve
            | (repeat
                first
                  | exact one_mem_unit
                  | exact qa_hss_en_rango _ _ _ hE (hFcr fcr (by simp))
                      (by assumption)
                  | apply min_mem_unit)
            | simp_all
  case TUBO_RECT =>
    simp only [calcular_Q]
    rw [if_neg (by simp [hesb])]
    dsimp only
    refine ⟨(clamp_fst_mem _ _ _ _).1, (clamp_fst_mem _ _ _ _).2, ?_, rfl⟩
    cases Fcr with
    | none => split_ifs <;> solve | exact one_mem_unit | simp_all
    | some fcr =>
        split_ifs <;>
          solve
            | (repeat
                first
                  | exact one_mem_unit
                  | exact qa_hss_en_rango _ _ _ hE (hFcr fcr (by simp))
                      (by assumption)
                  | apply min_mem_unit)
            | simp_all

/-- Witness for C8: the slender-leg angle `propsAngularEsbelto`
(b/t = 20 > λr = 4.5) at Fy = 1, E = 100, no Fcr supplied. -/
theorem C8_factores_q_witness :
    0.35 ≤ (calcular_Q propsAngularEsbelto 1 100 none).Qs ∧
    (calcular_Q propsAngularEsbelto 1 100 none).Qs ≤ 0.76 ∧
    (0 < (calcular_Q propsAngularEsbelto 1 100 none).Qa ∧
      (calcular_Q propsAngularEsbelto 1 100 none).Qa ≤ 1) ∧
    (calcular_Q propsAngularEsbelto 1 100 none).Q
      = (calcular_Q propsAngularEsbelto 1 100 none).Qs *
        (calcular_Q propsAngularEsbelto 1 100 none).Qa :=
  C8_factores_q propsAngularEsbelto 1 100 none (by norm_num)
    (by simp)
    (by norm_num [propsAngularEsbelto])
    (by norm_num [clasificar_seccion, propsAngularEsbelto,
      _limites_pata_angular, _clasificar_elemento, clase_global, sqrt_cien])

/-- C6: at the concrete rectangular-tube section `propsTuboRectEsbelto`,
whose flange wall is slender, a Q computation without a critical stress
takes the reduction factor Qa = 1.0 but records no missing-Fcr warning:
the guard `Fcr is None and Qa_min < 1.0` in the HSS branch of `calcular_Q`
is unreachable, so the MissingCriticalStress warning the spec promises is
never appended for tube sections. -/
theorem C6_hss_sin_advertencia :
    (calcular_Q propsTuboRectEsbelto 1 100 none).Qa = 1 ∧
    "ADVERTENCIA: Fcr no proporcionado, Qa = 1.0 (conservador)"
      ∉ (calcular_Q propsTuboRectEsbelto 1 100 none).notas := by
  have hesb : (clasificar_seccion propsTuboRectEsbelto 1 100).es_esbelta
      = true := by
    norm_num [clasificar_seccion, propsTuboRectEsbelto,
      _limites_tubo_rectangular_pared, _clasificar_elemento, clase_global,
      sqrt_cien]
  have helem : (clasificar_seccion propsTuboRectEsbelto 1 100).elementos
      = [("flange", Clase.ESBELTA)] := by
    norm_num [clasificar_seccion, propsTuboRectEsbelto,
      _limites_tubo_rectangular_pared, _clasificar_elemento, clase_global,
      sqrt_cien]
  have htipo : propsTuboRectEsbelto.tipo = Tipo.TUBO_RECT := rfl
  norm_num [calcular_Q, htipo, hesb, helem]
  decide

/-- C7: for an I-shape with positive section constants, on unbraced lengths
strictly beyond Lr the LTB nominal moment is non-increasing in Lb. -/
theorem C7_ltb_elastico_monotono (Lp Lr Mp Fy Sx Cb E rts J ho Lb1 Lb2 : ℝ)
    (hrts : 0 < rts) (hSx : 0 < Sx) (hho : 0 < ho) (hJ : 0 ≤ J)
    (hCb : 0 ≤ Cb) (hE : 0 ≤ E) (hLr : 0 < Lr) (h1 : Lr < Lb1)
    (h12 : Lb1 < Lb2) :
    (_Mn_LTB Lb2 Lp Lr Mp Fy Sx Cb E rts J ho).1 ≤
    (_Mn_LTB Lb1 Lp Lr Mp Fy Sx Cb E rts J ho).1 := by
  have hnr1 : ¬ Lb1 ≤ Lr := not_le.mpr h1
  have hnr2 : ¬ Lb2 ≤ Lr := not_le.mpr (h1.trans h12)
  simp only [_Mn_LTB]
  by_cases hp2 : Lb2 ≤ Lp
  · rw [if_pos hp2, if_pos ((h12.trans_le hp2).le)]
  · rw [if_neg hp2, if_neg hnr2]
    by_cases hp1 : Lb1 ≤ Lp
    · rw [if_pos hp1]
      exact min_le_right _ _
    · rw [if_neg hp1, if_neg hnr1]
      refine min_le_min (mul_le_mul_of_nonneg_right ?_ hSx.le) le_rfl
      exact fcr_ltb_antitono (Cb * Real.pi ^ 2 * E) (0.078 * J / (Sx * ho))
        (Lb1 / rts) (Lb2 / rts) (by positivity) (by positivity)
        (div_pos (hLr.trans h1) hrts) ((div_le_div_right hrts).mpr h12.le)

/-- Witness for C7 at Lr = 1 < Lb1 = 2 < Lb2 = 3, all section constants 1,
J = 0. -/
theorem C7_ltb_elastico_monotono_witness :
    (_Mn_LTB 3 1 1 1 1 1 1 1 1 0 1).1 ≤ (_Mn_LTB 2 1 1 1 1 1 1 1 1 0 1).1 :=
  C7_ltb_elastico_monotono 1 1 1 1 1 1 1 1 0 1 2 3 (by norm_num)
    (by norm_num) (by norm_num) (by norm_num) (by norm_num) (by norm_num)
    (by norm_num) (by norm_num) (by norm_num)

/-- C4: an element with λp defined and λ ≤ λp is COMPACTA (so λ = λp gives
COMPACTA); otherwise λ ≤ λr gives NO_COMPACTA (so λ = λr with λp undefined
or λp < λ gives NO_COMPACTA); otherwise (λr < λ) ESBELTA; and the overall
section class is the worst element class under
ESBELTA > NO_COMPACTA > COMPACTA. -/
theorem C4_clasificacion_elemento (lam : ℝ) (lamP : Option ℝ) (lamR : ℝ)
    (cs : List Clase) :
    (∀ lp, lamP = some lp → lam ≤ lp →
        _clasificar_elemento lam lamP lamR = Clase.COMPACTA) ∧
    ((lamP = none ∨ ∃ lp, lamP = some lp ∧ lp < lam) → lam ≤ lamR →
        _clasificar_elemento lam lamP lamR = Clase.NO_COMPACTA) ∧
    ((lamP = none ∨ ∃ lp, lamP = some lp ∧ lp < lam) → lamR < lam →
        _clasificar_elemento lam lamP lamR = Clase.ESBELTA) ∧
    clase_global cs = cs.foldr Clase.worst Clase.COMPACTA := by
  refine ⟨?_, ?_, ?_, clase_global_foldr cs⟩
  · rintro lp rfl hle
    simp [_clasificar_elemento, hle]
  · rintro (rfl | ⟨lp, rfl, hlt⟩) hle
    · simp [_clasificar_elemento, hle]
    · simp [_clasificar_elemento, not_le.mpr hlt, hle]
  · rintro (rfl | ⟨lp, rfl, hlt⟩) hgt
    · simp [_clasificar_elemento, not_le.mpr hgt]
    · simp [_clasificar_elemento, not_le.mpr hlt, not_le.mpr hgt]

/-- C10: with 0 < Lp < Lr, Mp > 0 and Cb ≥ 1, the LTB nominal moment never
exceeds the plastic moment Mp in any of the three zones — the inelastic and
elastic branches are capped at Mp by the explicit min. -/
theorem C10_mn_ltb_acotado (Lb Lp Lr Mp Fy Sx Cb E rts J ho : ℝ)
    (hLp : 0 < Lp) (hLpr : Lp < Lr) (hMp : 0 < Mp) (hCb : 1 ≤ Cb) :
    (_Mn_LTB Lb Lp Lr Mp Fy Sx Cb E rts J ho).1 ≤ Mp := by
  unfold _Mn_LTB
  split_ifs <;> simp [min_le_right]

/-- Witness for C10 at Lb = 1, Lp = 1, Lr = 2, all other inputs 1. -/
theorem C10_mn_ltb_acotado_witness :
    (_Mn_LTB 1 1 2 1 1 1 1 1 1 1 1).1 ≤ 1 :=
  C10_mn_ltb_acotado 1 1 2 1 1 1 1 1 1 1 1 (by norm_num) (by norm_num)
    (by norm_num) (by norm_num)

/-- C2 (amended): when Pd ≤ 0 the interaction check does not abort — it
returns early a result record with ratio nan (none), cumple = false,
equation tag "—" and the warning "Pd ≤ 0: interacción no calculada."
appended to the accumulated warnings. -/
theorem C2_pd_no_positivo (Nu Mux Muy Pd : ℝ) (Mdx Mdy : Option ℝ)
    (advs : List String) (hPd : Pd ≤ 0) :
    (interaccion Nu Mux Muy Pd Mdx Mdy advs).ratio = none ∧
    (interaccion Nu Mux Muy Pd Mdx Mdy advs).cumple = false ∧
    (interaccion Nu Mux Muy Pd Mdx Mdy advs).ecuacion = "—" ∧
    (interaccion Nu Mux Muy Pd Mdx Mdy advs).advertencias
      = advs ++ ["Pd ≤ 0: interacción no calculada."] := by
  simp [interaccion, hPd]

/-- Witness for C2 at Pd = -5. -/
theorem C2_pd_no_positivo_witness :
    (interaccion 1 2 3 (-5) none none []).cumple = false :=
  (C2_pd_no_positivo 1 2 3 (-5) none none [] (by norm_num)).2.1

/-- C2 counterexample to the claim as stated: at Nu = 100, Mux = 50,
Muy = 20 and Pd = 0 the interaction check does not abort with an error — it
returns this full result record. -/
theorem C2_pd_no_positivo_counterexample :
    interaccion 100 50 20 0 none none [] =
      { ratio := none, cumple := false, ecuacion := "—", Pd := 0,
        Mdx := none, Mdy := none, Nu_Pd := none, Mux_Mdx := none,
        Muy_Mdy := none,
        advertencias := ["Pd ≤ 0: interacción no calculada."] } := by
  simp [interaccion]

/-- C5: with Pd > 0 and valid moment capacities, Nu/Pd ≥ 0.2 selects
H1-1a with ratio Nu/Pd + 8/9·(Mux/Mdx + Muy/Mdy); Nu/Pd < 0.2 selects
H1-1b with ratio Nu/(2·Pd) + (Mux/Mdx + Muy/Mdy); the check passes iff
the combined ratio is ≤ 1. -/
theorem C5_interaccion_h1 (Nu Mux Muy Pd mdx mdy : ℝ) (advs : List String)
    (hPd : 0 < Pd) (hmdx : 0 < mdx) (hmdy : 0 < mdy) :
    (0.2 ≤ Nu / Pd →
        (interaccion Nu Mux Muy Pd (some mdx) (some mdy) advs).ratio
          = some (Nu / Pd + 8 / 9 * (Mux / mdx + Muy / mdy)) ∧
        (interaccion Nu Mux Muy Pd (some mdx) (some mdy) advs).ecuacion
          = "H1-1a") ∧
    (Nu / Pd < 0.2 →
        (interaccion Nu Mux Muy Pd (some mdx) (some mdy) advs).ratio
          = some (Nu / (2 * Pd) + (Mux / mdx + Muy / mdy)) ∧
        (interaccion Nu Mux Muy Pd (some mdx) (some mdy) advs).ecuacion
          = "H1-1b") ∧
    ((interaccion Nu Mux Muy Pd (some mdx) (some mdy) advs).cumple = true ↔
        ∃ r, (interaccion Nu Mux Muy Pd (some mdx) (some mdy) advs).ratio
          = some r ∧ r ≤ 1) := by
  refine ⟨?_, ?_, ?_⟩
  · intro h
    simp [interaccion, hPd.not_le, hPd, hmdx, hmdy, h]
  · intro h
    simp [interaccion, hPd.not_le, hPd, hmdx, hmdy, not_le.mpr h]
    rw [div_div, mul_comm]
  · simp only [interaccion, hPd.not_le, if_false, hPd, if_true, hmdx, hmdy]
    split_ifs with h1 h2 h3 <;> simp
    all_goals first
      | (simp at h2; linarith)
      | (simp at h3; linarith)

/-- Witness for C5 at Nu = 1, Pd = 10 (Nu/Pd = 0.1 < 0.2). -/
theorem C5_interaccion_h1_witness :
    (interaccion 1 0 0 10 (some 1) (some 1) []).ecuacion = "H1-1b" :=
  ((C5_interaccion_h1 1 0 0 10 1 1 [] (by norm_num) (by norm_num)
    (by norm_num)).2.1 (by norm_num)).2

/-- C9: with Pd > 0, a nan (none) or non-positive design moment capacity
makes the corresponding moment ratio 0, for both axes; and the concrete
input Nu = 10, Mux = 100 with Mdx nan and Pd = 100 still passes the check. -/
theorem C9_md_invalido_ratio_cero :
    (∀ Nu Mux Muy Pd mdy advs, 0 < Pd →
        (interaccion Nu Mux Muy Pd none mdy advs).Mux_Mdx = some 0) ∧
    (∀ Nu Mux Muy Pd m mdy advs, 0 < Pd → m ≤ 0 →
        (interaccion Nu Mux Muy Pd (some m) mdy advs).Mux_Mdx = some 0) ∧
    (∀ Nu Mux Muy Pd mdx advs, 0 < Pd →
        (interaccion Nu Mux Muy Pd mdx none advs).Muy_Mdy = some 0) ∧
    (∀ Nu Mux Muy Pd m mdx advs, 0 < Pd → m ≤ 0 →
        (interaccion Nu Mux Muy Pd mdx (some m) advs).Muy_Mdy = some 0) ∧
    (interaccion 10 100 0 100 none (some 50) []).cumple = true := by
  refine ⟨?_, ?_, ?_, ?_, ?_⟩
  · intro Nu Mux Muy Pd mdy advs hPd
    norm_num [interaccion, hPd.not_le]
  · intro Nu Mux Muy Pd m mdy advs hPd hm
    norm_num [interaccion, hPd.not_le, not_lt.mpr hm]
  · intro Nu Mux Muy Pd mdx advs hPd
    cases mdx <;> norm_num [interaccion, hPd.not_le]
  · intro Nu Mux Muy Pd m mdx advs hPd hm
    cases mdx <;> norm_num [interaccion, hPd.not_le, not_lt.mpr hm]
  · norm_num [interaccion]

end Perfiles
